import Mathlib

/-!
Shallow embedding of the reconciliation core of the platform-service-gateway
repository, together with theorems checking the natural-language
specification against it.

The embedding follows the Go source:
  * the selector engine (`shouldReconcile`, `enabledForCluster`, `refMatches`,
    `selectorMatches`, `purposeMatches`, `labelsMatch`) from
    internal/controllers/cluster/controller.go;
  * the delete-with-retry primitive (`ensureDeletionOfObjects`) and the
    apply primitive (`createOrUpdate`) from pkg/envoy;
  * the gateway lifecycle operations (`Gateway.installOrUpdate`,
    `Gateway.configure`, `Gateway.cleanup`, `Gateway.uninstall`) with their
    managed-object identity lists;
  * the cluster reconciler state machine (`reconcile`), with the outcomes of
    the external collaborators (store client, access broker) passed in as an
    explicit environment.

Effectful calls (Kubernetes client operations, the access broker) are
represented by their outcomes: a delete is a function from an object identity
to a result, an apply is a function from an object identity to an optional
error, and the reconciler takes an environment recording what each external
call would return.  Go maps are association lists; a Go map read `m[k]`
returns the zero value "" when the key is absent, which `lookupGo` mirrors.
-/

namespace PSG

/-- Identity of a managed remote object: (kind, namespace, name).
Cluster-scoped objects carry the empty namespace. -/
structure ObjId where
  kind : String
  ns : String
  name : String
deriving DecidableEq, Repr

/-- The error values the embedded code produces, as a closed algebra.
`remainingResources t objs` is `NewRemainingResourcesError(t, objs...)`:
a `RetryableError` with `RequeueAfter = t` seconds wrapping a
`RemainingResourcesError` carrying `objs` (pkg/utils).  `retryable t e` is
`NewRetryableError(e, t)`.  `joined msg e` is `errors.Join(sentinel(msg), e)`.
`crdNotFound` stands for the errors `IsCRDNotFoundError` recognises
(`NoKindMatchError` / `NoResourceMatchError` / a discovery failure whose
wrapped errors are all not-found). -/
inductive GoError where
  | crdNotFound (msg : String)
  | remainingResources (requeueAfterSec : Nat) (objs : List ObjId)
  | retryable (requeueAfterSec : Nat) (inner : GoError)
  | sentinel (msg : String)
  | joined (msg : String) (inner : GoError)
deriving DecidableEq, Repr

/-- `utils.IsRemainingResourcesError`: `errors.Is` against an empty
`RemainingResourcesError`, walking the unwrap chain. -/
def isRemainingResourcesErr : GoError → Bool
  | .remainingResources _ _ => true
  | .retryable _ e => isRemainingResourcesErr e
  | .joined _ e => isRemainingResourcesErr e
  | _ => false

/-- `utils.IsCRDNotFoundError`, walking the unwrap chain. -/
def isCRDNotFoundErr : GoError → Bool
  | .crdNotFound _ => true
  | .retryable _ e => isCRDNotFoundErr e
  | .joined _ e => isCRDNotFoundErr e
  | _ => false

/-- `errors.As(err, &RetryableError{})`: does the unwrap chain hold a
`RetryableError`?  (`remainingResources` is one by construction.) -/
def isRetryableErr : GoError → Bool
  | .remainingResources _ _ => true
  | .retryable _ _ => true
  | .joined _ e => isRetryableErr e
  | _ => false

/-- `utils.IsCRDNotFoundError` applied to a Go `error` value that may be nil:
nil is not a CRD-not-found error. -/
def isCRDNotFoundError : Option GoError → Bool
  | none => false
  | some e => isCRDNotFoundErr e

/-- `corev1.NamespaceDefault`. -/
def namespaceDefault : String := "default"

/-- `openmcpconst.OperationAnnotation`, the generic operation annotation key
(an external constant of the openmcp-operator API; only its fixed value and
its distinctness from the gateway-prefixed variant matter here). -/
def genericOperationKey : String := "openmcp.cloud/operation"

/-- `gatewayv1alpha1.OperationAnnotation = "gateway." + openmcpconst.OperationAnnotation`
(src/api/gateway/v1alpha1/constants.go). -/
def gatewayOperationKey : String := "gateway." ++ genericOperationKey

/-- `openmcpconst.OperationAnnotationValueIgnore`. -/
def operationValueIgnore : String := "ignore"

/-- `openmcpconst.OperationAnnotationValueReconcile`. -/
def operationValueReconcile : String := "reconcile"

/-- `gatewayv1alpha1.GatewayFinalizerOnCluster = "platformservice." + OpenMCPGroupName + "/gateway"`
(src/api/gateway/v1alpha1/constants.go; the group name is the openmcp API group). -/
def gatewayFinalizerOnCluster : String := "platformservice.openmcp.cloud/gateway"

/-- The Target Cluster object (`clustersv1alpha1.Cluster`): the fields the
reconciliation core reads or writes.  `deletionTimestampSet` models
`!DeletionTimestamp.IsZero()`. -/
structure Cluster where
  name : String
  ns : String
  labels : List (String × String)
  purposes : List String
  annots : List (String × String)
  finalizers : List String
  deletionTimestampSet : Bool
deriving DecidableEq, Repr

/-- Association-list lookup: the `v, ok := m[k]` form of a Go map read. -/
def lookupOpt (m : List (String × String)) (k : String) : Option String :=
  (m.find? (fun p => p.1 = k)).map (·.2)

/-- The `m[k]` form of a Go map read: the zero value "" when `k` is absent. -/
def lookupGo (m : List (String × String)) (k : String) : String :=
  (lookupOpt m k).getD ""

/-- The keys of an association list. -/
def keysOf (m : List (String × String)) : List String := m.map (·.1)

/-- Deleting a key from a Go map (`delete(m, k)`). -/
def eraseKey (m : List (String × String)) (k : String) : List (String × String) :=
  m.filter (fun p => p.1 ≠ k)

/-- `gatewayv1alpha1.ClusterSelector` (src/api/gateway/v1alpha1/config_types.go). -/
structure ClusterSelector where
  matchLabels : List (String × String)
  matchPurpose : String
deriving DecidableEq, Repr

/-- `gatewayv1alpha1.ClusterRef`. -/
structure ClusterRef where
  name : String
  ns : String
deriving DecidableEq, Repr

/-- `gatewayv1alpha1.ClusterTerm`: a selector or a direct reference (each optional). -/
structure ClusterTerm where
  selector : Option ClusterSelector
  clusterRef : Option ClusterRef
deriving DecidableEq, Repr

/-- `labelsMatch` (controller.go): every listed key/value pair must satisfy
`cluster.Labels[label] == value`, a Go map read defaulting to "". -/
def labelsMatch (labels : List (String × String)) (c : Cluster) : Bool :=
  labels.all (fun kv => lookupGo c.labels kv.1 = kv.2)

/-- `purposeMatches` (controller.go): the empty purpose matches any cluster,
otherwise `slices.Contains(cluster.Spec.Purposes, purpose)`. -/
def purposeMatches (purpose : String) (c : Cluster) : Bool :=
  if purpose = "" then true else purpose ∈ c.purposes

/-- `selectorMatches` (controller.go): purpose AND labels. -/
def selectorMatches (sel : ClusterSelector) (c : Cluster) : Bool :=
  purposeMatches sel.matchPurpose c && labelsMatch sel.matchLabels c

/-- `normalizedName` (controller.go): an empty namespace is replaced by the
default namespace; the result is a (name, namespace) pair. -/
def normalizedName (name ns : String) : String × String :=
  (name, if ns = "" then namespaceDefault else ns)

/-- `refMatches` (controller.go): normalized (name, namespace) equality,
the normalization applied to both sides. -/
def refMatches (ref : ClusterRef) (c : Cluster) : Bool :=
  normalizedName ref.name ref.ns = normalizedName c.name c.ns

/-- One iteration of the `enabledForCluster` loop: a term matches when its
direct reference matches or its selector matches (each checked only when set). -/
def termMatches (ct : ClusterTerm) (c : Cluster) : Bool :=
  (match ct.clusterRef with
   | some ref => refMatches ref c
   | none => false) ||
  (match ct.selector with
   | some sel => selectorMatches sel c
   | none => false)

/-- `enabledForCluster` (controller.go): true iff any configured term matches. -/
def enabledForCluster (terms : List ClusterTerm) (c : Cluster) : Bool :=
  terms.any (fun ct => termMatches ct c)

/-- `controllerutil.ContainsFinalizer`. -/
def containsFinalizer (c : Cluster) (f : String) : Bool :=
  f ∈ c.finalizers

/-- `shouldReconcile` (controller.go): gateway finalizer present OR in scope. -/
def shouldReconcile (terms : List ClusterTerm) (c : Cluster) : Bool :=
  containsFinalizer c gatewayFinalizerOnCluster || enabledForCluster terms c

/-- What one `client.Delete` call returns: not-found, CRD-not-found, accepted
(no error; the asynchronous deletion may not have completed), or another error. -/
inductive DelResult where
  | notFound
  | crdNotFound
  | accepted
  | failed (msg : String)
deriving DecidableEq, Repr

/-- An abstraction of the remote declarative store as seen by Delete:
which objects currently exist and which kinds have no registered CRD. -/
structure Store where
  present : List ObjId
  unregisteredKinds : List String
deriving DecidableEq, Repr

/-- The Delete call of a store client against `Store`: deleting an object of
an unregistered kind reports CRD-not-found, deleting an absent object reports
not-found, deleting a present object is accepted (deletion is asynchronous,
so presence at the time of the call is what the caller observes). -/
def clientDelete (s : Store) (o : ObjId) : DelResult :=
  if o.kind ∈ s.unregisteredKinds then .crdNotFound
  else if o ∈ s.present then .accepted
  else .notFound

/-- The loop of `ensureDeletionOfObjects` (pkg/envoy): issue a delete per
object; not-found and CRD-not-found are skipped, an unexpected error returns
immediately joined with the `errFailedToDeleteObject` sentinel, and an
accepted delete adds the object to the `remaining` list. -/
def deletionLoop (delete : ObjId → DelResult) : List ObjId → Except GoError (List ObjId)
  | [] => .ok []
  | o :: rest =>
    match delete o with
    | .notFound => deletionLoop delete rest
    | .crdNotFound => deletionLoop delete rest
    | .failed msg => .error (.joined "failed to delete object" (.sentinel msg))
    | .accepted =>
      match deletionLoop delete rest with
      | .error e => .error e
      | .ok remaining => .ok (o :: remaining)

/-- `ensureDeletionOfObjects` (pkg/envoy): after the loop, if the `remaining`
list is non-empty the function returns `NewRemainingResourcesError(10s, objs...)`
— note the source passes the full input list `objs`, not `remaining` — and
otherwise nil. -/
def ensureDeletionOfObjects (delete : ObjId → DelResult) (objs : List ObjId) : Option GoError :=
  match deletionLoop delete objs with
  | .error e => some e
  | .ok remaining =>
    if remaining.length > 0 then some (.remainingResources 10 objs)
    else none

/-- `deploymentNamespace` (pkg/envoy/deployment.go). -/
def deploymentNamespace : String := "envoy-gateway-system"

/-- `gatewayClassName` (pkg/envoy). -/
def gatewayClassName : String := "envoy-gateway"

/-- `gatewayName` (pkg/envoy). -/
def gatewayName : String := "default"

/-- `gatewayNamespace` (pkg/envoy). -/
def gatewayNamespace : String := "openmcp-system"

/-- The `envoy.Gateway` lifecycle manager, reduced to the data its
managed-object identities depend on: the target cluster and the configured
image pull secret names (empty when `EnvoyConfig.Images` is nil or lists none). -/
structure Gateway where
  cluster : Cluster
  pullSecretNames : List String
deriving DecidableEq, Repr

/-- `getRepo` (deployment.go): the OCIRepository named `<cluster-name>.gateway`
in the cluster's namespace. -/
def Gateway.repoId (g : Gateway) : ObjId :=
  ⟨"OCIRepository", g.cluster.ns, g.cluster.name ++ ".gateway"⟩

/-- `getHelmRelease` (deployment.go). -/
def Gateway.helmReleaseId (g : Gateway) : ObjId :=
  ⟨"HelmRelease", g.cluster.ns, g.cluster.name ++ ".gateway"⟩

/-- `getGatewayClass` (pkg/envoy): cluster-scoped. -/
def gatewayClassId : ObjId := ⟨"GatewayClass", "", gatewayClassName⟩

/-- `getGateway` (pkg/envoy). -/
def gatewayId : ObjId := ⟨"Gateway", gatewayNamespace, gatewayName⟩

/-- `getEnvoyProxy` (pkg/envoy). -/
def envoyProxyId : ObjId := ⟨"EnvoyProxy", gatewayNamespace, gatewayName⟩

/-- The identity of an `ensureNamespace` operation. -/
def namespaceId (ns : String) : ObjId := ⟨"Namespace", "", ns⟩

/-- The identity of a copied image pull secret (`ensureSecrets`). -/
def secretId (ns name : String) : ObjId := ⟨"Secret", ns, name⟩

/-- The apply-operation identities of `InstallOrUpdate` (deployment.go), in
order: deployment namespace, copied pull secrets, chart source, chart release. -/
def Gateway.installOps (g : Gateway) : List ObjId :=
  namespaceId deploymentNamespace ::
    (g.pullSecretNames.map (secretId deploymentNamespace) ++ [g.repoId, g.helmReleaseId])

/-- The apply-operation identities of `Configure` (pkg/envoy), in order:
data-plane namespace, gateway class, proxy configuration, gateway. -/
def configureOps : List ObjId :=
  [namespaceId gatewayNamespace, gatewayClassId, envoyProxyId, gatewayId]

/-- The objects `Cleanup` deletes, in order: gateway, proxy configuration,
gateway class. -/
def cleanupObjs : List ObjId := [gatewayId, envoyProxyId, gatewayClassId]

/-- The objects `Uninstall` deletes, in order: chart release, chart source. -/
def Gateway.uninstallObjs (g : Gateway) : List ObjId := [g.helmReleaseId, g.repoId]

/-- `createOrUpdate` (pkg/envoy): run the apply operations in order, stopping
at the first error and returning it unwrapped.  The outcome of one
`controllerutil.CreateOrUpdate` call is given by `apply` on the operation's
object identity. -/
def createOrUpdate (apply : ObjId → Option GoError) : List ObjId → Option GoError
  | [] => none
  | op :: rest =>
    match apply op with
    | some e => some e
    | none => createOrUpdate apply rest

/-- `Gateway.InstallOrUpdate` (deployment.go): apply the control-plane batch
against the platform store and return its result unchanged. -/
def Gateway.installOrUpdate (g : Gateway) (apply : ObjId → Option GoError) : Option GoError :=
  createOrUpdate apply g.installOps

/-- `Gateway.Configure` (pkg/envoy): apply the data-plane batch against the
target store; a CRD-not-found apply error is converted into
`NewRetryableError(err, 10s)`, every other result is returned unchanged. -/
def Gateway.configure (_g : Gateway) (apply : ObjId → Option GoError) : Option GoError :=
  match createOrUpdate apply configureOps with
  | some e => if isCRDNotFoundErr e then some (.retryable 10 e) else some e
  | none => none

/-- `Gateway.Cleanup` (pkg/envoy): `ensureDeletionOfObjects` on the
data-plane objects of the target store. -/
def Gateway.cleanup (_g : Gateway) (delete : ObjId → DelResult) : Option GoError :=
  ensureDeletionOfObjects delete cleanupObjs

/-- `Gateway.Uninstall` (deployment.go): `ensureDeletionOfObjects` on the
chart delivery objects of the platform store. -/
def Gateway.uninstall (g : Gateway) (delete : ObjId → DelResult) : Option GoError :=
  ensureDeletionOfObjects delete g.uninstallObjs

/-- What `ClusterAccessReconciler.Reconcile` reports to `buildGatewayManager`:
access ready, not yet available (with a requeue hint), or an error. -/
inductive AccessResult where
  | ready
  | notYet (requeueAfterSec : Nat)
  | failed (msg : String)
deriving DecidableEq, Repr

/-- The outcomes of the four gateway lifecycle calls the reconciler makes
(`Cleanup`, `Uninstall`, `InstallOrUpdate`, `Configure`), each nil on success. -/
structure GwResults where
  cleanup : Option GoError
  uninstall : Option GoError
  installOrUpdate : Option GoError
  configure : Option GoError
deriving DecidableEq, Repr

/-- The outcomes of the external calls one reconciliation run makes.
`getCluster = none` models a not-found Get (other Get errors only re-wrap and
return).  `removeOpAnnOk` is the outcome of the `EnsureAnnotation … DELETE`
write, `updateOk` of the finalizer `Update` writes. -/
structure Env where
  getCluster : Option Cluster
  removeOpAnnOk : Bool
  access : AccessResult
  updateOk : Bool
  gw : GwResults
deriving DecidableEq, Repr

/-- What a reconciliation run returns and leaves behind: the remote Cluster
object after the run, the error (nil on success), and the requeue horizon in
seconds (0 for none). -/
structure RecResult where
  cluster : Option Cluster
  error : Option GoError
  requeueAfterSec : Nat
deriving DecidableEq, Repr

/-- The effective operation annotation (controller.go): the gateway-specific
key takes precedence, the generic key is evaluated only when the
gateway-specific one is absent. -/
def effectiveOperation (c : Cluster) : Option String :=
  match lookupOpt c.annots gatewayOperationKey with
  | some v => some v
  | none => lookupOpt c.annots genericOperationKey

/-- The outcome of the operation-annotation handling step. -/
inductive OpDecision where
  | terminate
  | failed
  | proceed (c : Cluster)
deriving DecidableEq, Repr

/-- The operation-annotation handling of `reconcile` (controller.go):
`ignore` terminates the run, `reconcile` deletes the generic operation
annotation key (`EnsureAnnotation(…, openmcpconst.OperationAnnotation, "",
true, DELETE)`) and proceeds, any other value proceeds unchanged. -/
def handleOperation (removeOk : Bool) (c : Cluster) : OpDecision :=
  match effectiveOperation c with
  | none => .proceed c
  | some v =>
    if v = operationValueIgnore then .terminate
    else if v = operationValueReconcile then
      if removeOk then .proceed { c with annots := eraseKey c.annots genericOperationKey }
      else .failed
    else .proceed c

/-- `controllerutil.AddFinalizer` on the gateway finalizer (called only when
it is absent). -/
def addFinalizer (c : Cluster) : Cluster :=
  { c with finalizers := c.finalizers ++ [gatewayFinalizerOnCluster] }

/-- `controllerutil.RemoveFinalizer` on the gateway finalizer. -/
def removeFinalizer (c : Cluster) : Cluster :=
  { c with finalizers := c.finalizers.filter (· ≠ gatewayFinalizerOnCluster) }

/-- The converge path after the finalizer write (controller.go):
`InstallOrUpdate`, then `Configure`, any failure surfaced unchanged; on
success requeue after one hour. -/
def convergeRest (env : Env) (c : Cluster) : RecResult :=
  match env.gw.installOrUpdate with
  | some e => ⟨some c, some e, 0⟩
  | none =>
    match env.gw.configure with
    | some e => ⟨some c, some e, 0⟩
    | none => ⟨some c, none, 3600⟩

/-- The teardown path (controller.go): `Cleanup`, then `Uninstall`, either
failure surfaced unchanged with no finalizer write; only after both succeed
is the gateway finalizer removed (written back only when present). -/
def teardown (env : Env) (c : Cluster) : RecResult :=
  match env.gw.cleanup with
  | some e => ⟨some c, some e, 0⟩
  | none =>
    match env.gw.uninstall with
    | some e => ⟨some c, some e, 0⟩
    | none =>
      if containsFinalizer c gatewayFinalizerOnCluster then
        if env.updateOk then ⟨some (removeFinalizer c), none, 0⟩
        else ⟨some c, some (.sentinel "update failed"), 0⟩
      else ⟨some c, none, 0⟩

/-- `reconcile` (controller.go) after the operation-annotation step: the
scope gate, `buildGatewayManager` (access acquisition; a not-yet-available
result becomes a joined retryable error, an access error a joined error),
then the teardown or converge branch.  On the converge path the finalizer is
added (written back only when newly added) before any apply. -/
def reconcileCore (terms : List ClusterTerm) (env : Env) (c : Cluster) : RecResult :=
  if !shouldReconcile terms c then ⟨some c, none, 0⟩
  else
    match env.access with
    | .failed msg =>
      ⟨some c, some (.joined "failed to build Gateway manager" (.sentinel msg)), 0⟩
    | .notYet t =>
      ⟨some c, some (.joined "failed to build Gateway manager"
        (.retryable t (.sentinel "cluster access is not yet available"))), 0⟩
    | .ready =>
      if c.deletionTimestampSet || !enabledForCluster terms c then teardown env c
      else
        if containsFinalizer c gatewayFinalizerOnCluster then convergeRest env c
        else if env.updateOk then convergeRest env (addFinalizer c)
        else ⟨some c, some (.sentinel "update failed"), 0⟩

/-- One reconciliation run (`ClusterReconciler.reconcile`, controller.go):
Get the Cluster (absent terminates successfully), handle the operation
annotation, then `reconcileCore`. -/
def reconcile (terms : List ClusterTerm) (env : Env) : RecResult :=
  match env.getCluster with
  | none => ⟨none, none, 0⟩
  | some c =>
    match handleOperation env.removeOpAnnOk c with
    | .terminate => ⟨some c, none, 0⟩
    | .failed =>
      ⟨some c, some (.joined "failed to remove operation annotation" (.sentinel "update failed")), 0⟩
    | .proceed c' => reconcileCore terms env c'

/-- Modelled from the spec's words for comparison (claim C4 reads label
matching as requiring every listed key/value pair to be PRESENT on the
cluster): a pair (k, v) is present when the cluster's label map holds the key
k with exactly the value v. -/
def labelsMatchPresence (labels : List (String × String)) (c : Cluster) : Bool :=
  labels.all (fun kv => lookupOpt c.labels kv.1 = some kv.2)

/-- The presence reading of `selectorMatches` (see `labelsMatchPresence`). -/
def selectorMatchesPresence (sel : ClusterSelector) (c : Cluster) : Bool :=
  purposeMatches sel.matchPurpose c && labelsMatchPresence sel.matchLabels c

/-- The presence reading of `termMatches`. -/
def termMatchesPresence (ct : ClusterTerm) (c : Cluster) : Bool :=
  (match ct.clusterRef with
   | some ref => refMatches ref c
   | none => false) ||
  (match ct.selector with
   | some sel => selectorMatchesPresence sel c
   | none => false)

/-- The presence reading of `enabledForCluster`. -/
def inScopePresence (terms : List ClusterTerm) (c : Cluster) : Bool :=
  terms.any (fun ct => termMatchesPresence ct c)

/-- The term list of the repository's `Test_shouldReconcile` table
(internal/controllers/cluster): purpose selector, label selector, combined
selector, direct reference. -/
def testTerms : List ClusterTerm :=
  [⟨some ⟨[], "platform"⟩, none⟩,
   ⟨some ⟨[("gateway", "true")], ""⟩, none⟩,
   ⟨some ⟨[("webhooks", "true")], "workload"⟩, none⟩,
   ⟨none, some ⟨"foo", "bar"⟩⟩]

/-- A configuration whose single selector maps a key to the empty string. -/
def c4Terms : List ClusterTerm := [⟨some ⟨[("tier", "")], ""⟩, none⟩]

/-- A cluster carrying no labels at all. -/
def c4Cluster : Cluster := ⟨"c4", "default", [], [], [], [], false⟩

/-- A configuration whose single selector maps the key "gpu" to "". -/
def c8Terms : List ClusterTerm := [⟨some ⟨[("gpu", "")], ""⟩, none⟩]

/-- A cluster with no labels, satisfying the term of `c8Terms`. -/
def c8Cluster : Cluster := ⟨"c8", "default", [], [], [], [], false⟩

/-- A label whose key is fresh on `c8Cluster`. -/
def c8Added : List (String × String) := [("gpu", "yes")]

/-- `c8Cluster` extended by the fresh-key label. -/
def c8ClusterExt : Cluster := { c8Cluster with labels := c8Cluster.labels ++ c8Added }

/-- The spec's scenario cluster: named foo in namespace bar. -/
def c9Cluster : Cluster := ⟨"foo", "bar", [], [], [], [], false⟩

/-- A cluster named foo whose namespace is empty (normalized to default). -/
def c9ClusterEmptyNs : Cluster := ⟨"foo", "", [], [], [], [], false⟩

/-- A cluster carrying one unrelated label and no "team" key. -/
def c10Cluster : Cluster := ⟨"w10", "default", [("a", "b")], [], [], [], false⟩

/-- A store holding none of the managed objects and missing the EnvoyProxy CRD. -/
def c7Store : Store := ⟨[], ["EnvoyProxy"]⟩

/-- A store in which all three data-plane objects of `Cleanup` are live. -/
def c1StoreAllLive : Store := ⟨[gatewayId, envoyProxyId, gatewayClassId], []⟩

/-- The store after the proxy configuration and the gateway class were removed
externally: only the gateway is still present. -/
def c1StoreOneLive : Store := ⟨[gatewayId], []⟩

/-- A lifecycle manager for the test cluster foo/bar with no pull secrets. -/
def c3Gateway : Gateway := ⟨⟨"foo", "bar", [], [], [], [], false⟩, []⟩

/-- A CRD-not-found apply error. -/
def c3ApplyErr : GoError := .crdNotFound "no matches for kind OCIRepository"

/-- An apply outcome in which the chart-source operation hits the
CRD-not-found error and every other operation succeeds. -/
def c3Apply : ObjId → Option GoError :=
  fun o => if o = Gateway.repoId c3Gateway then some c3ApplyErr else none

/-- A cluster carrying the gateway finalizer and a deletion timestamp. -/
def c2Cluster : Cluster := ⟨"c2", "default", [], [], [], [gatewayFinalizerOnCluster], true⟩

/-- A remaining-resources condition as `Cleanup` produces it. -/
def c2Err : GoError := .remainingResources 10 cleanupObjs

/-- An environment whose `Cleanup` call reports `c2Err`. -/
def c2Env : Env := ⟨some c2Cluster, true, .ready, true, ⟨some c2Err, none, none, none⟩⟩

/-- A cluster whose gateway-specific operation annotation is `reconcile`. -/
def c6Cluster : Cluster :=
  ⟨"c6", "default", [], [], [(gatewayOperationKey, "reconcile")], [], false⟩

/-- An environment that finds `c6Cluster` and succeeds on every write. -/
def c6Env : Env := ⟨some c6Cluster, true, .ready, true, ⟨none, none, none, none⟩⟩

/-- A cluster whose generic operation annotation is `reconcile`. -/
def c6wCluster : Cluster :=
  ⟨"c6w", "default", [], [], [(genericOperationKey, "reconcile")], [], false⟩

/-- An environment that finds `c6wCluster`. -/
def c6wEnv : Env := ⟨some c6wCluster, true, .ready, true, ⟨none, none, none, none⟩⟩

/-! Helper lemmas: association-list lookups and the Prop form of the
selector predicates. -/

lemma lookupOpt_cons (p : String × String) (m : List (String × String)) (k : String) :
    lookupOpt (p :: m) k = if p.1 = k then some p.2 else lookupOpt m k := by
  by_cases h : p.1 = k <;> simp [lookupOpt, List.find?_cons, h]

lemma lookupOpt_eq_none_of_not_mem_keys {m : List (String × String)} {k : String}
    (h : k ∉ keysOf m) : lookupOpt m k = none := by
  induction m with
  | nil => simp [lookupOpt]
  | cons p rest ih =>
    have h1 : p.1 ≠ k := fun hh => h (by simp [keysOf, hh])
    have h2 : k ∉ keysOf rest := fun hh => h (by simp [keysOf] at hh ⊢; exact .inr hh)
    simp [lookupOpt_cons, h1, ih h2]

lemma lookupOpt_append (m₁ m₂ : List (String × String)) (k : String) :
    lookupOpt (m₁ ++ m₂) k = (lookupOpt m₁ k).or (lookupOpt m₂ k) := by
  induction m₁ with
  | nil => simp [lookupOpt]
  | cons p rest ih =>
    by_cases h : p.1 = k <;> simp [List.cons_append, lookupOpt_cons, h, ih]

lemma eraseKey_cons (p : String × String) (m : List (String × String)) (k : String) :
    eraseKey (p :: m) k = if p.1 = k then eraseKey m k else p :: eraseKey m k := by
  by_cases h : p.1 = k <;> simp [eraseKey, List.filter_cons, h]

lemma lookupOpt_eraseKey_ne (m : List (String × String)) (k k' : String) (h : k' ≠ k) :
    lookupOpt (eraseKey m k) k' = lookupOpt m k' := by
  induction m with
  | nil => simp [eraseKey]
  | cons p rest ih =>
    by_cases hp : p.1 = k
    · have hkk' : k ≠ k' := fun hh => h hh.symm
      simp [eraseKey_cons, hp, lookupOpt_cons, hkk', ih]
    · by_cases hk' : p.1 = k' <;> simp [eraseKey_cons, hp, lookupOpt_cons, hk', h, ih]

lemma lookupOpt_eraseKey_self (m : List (String × String)) (k : String) :
    lookupOpt (eraseKey m k) k = none := by
  induction m with
  | nil => simp [eraseKey, lookupOpt]
  | cons p rest ih =>
    by_cases hp : p.1 = k <;> simp [eraseKey_cons, hp, lookupOpt_cons, ih]

lemma labelsMatch_eq_true_iff (labels : List (String × String)) (c : Cluster) :
    labelsMatch labels c = true ↔ ∀ kv ∈ labels, lookupGo c.labels kv.1 = kv.2 := by
  simp [labelsMatch, List.all_eq_true]

lemma purposeMatches_eq_true_iff (p : String) (c : Cluster) :
    purposeMatches p c = true ↔ (p = "" ∨ p ∈ c.purposes) := by
  by_cases h : p = "" <;> simp [purposeMatches, h]

lemma selectorMatches_eq_true_iff (sel : ClusterSelector) (c : Cluster) :
    selectorMatches sel c = true ↔
      (sel.matchPurpose = "" ∨ sel.matchPurpose ∈ c.purposes) ∧
        ∀ kv ∈ sel.matchLabels, lookupGo c.labels kv.1 = kv.2 := by
  simp [selectorMatches, Bool.and_eq_true, purposeMatches_eq_true_iff, labelsMatch_eq_true_iff]

lemma termMatches_eq_true_iff (ct : ClusterTerm) (c : Cluster) :
    termMatches ct c = true ↔
      (∃ ref, ct.clusterRef = some ref ∧ refMatches ref c = true) ∨
        (∃ sel, ct.selector = some sel ∧ selectorMatches sel c = true) := by
  cases hr : ct.clusterRef <;> cases hs : ct.selector <;>
    simp [termMatches, hr, hs]

lemma enabledForCluster_eq_true_iff (terms : List ClusterTerm) (c : Cluster) :
    enabledForCluster terms c = true ↔ ∃ ct ∈ terms, termMatches ct c = true := by
  simp [enabledForCluster, List.any_eq_true]

lemma deletionLoop_all_absent (delete : ObjId → DelResult) (objs : List ObjId)
    (h : ∀ o ∈ objs, delete o = .notFound ∨ delete o = .crdNotFound) :
    deletionLoop delete objs = .ok [] := by
  induction objs with
  | nil => rfl
  | cons o rest ih =>
    rcases h o (List.mem_cons_self o rest) with h1 | h1 <;>
      simp [deletionLoop, h1, ih (fun x hx => h x (List.mem_cons_of_mem o hx))]

/-- The embedded selector engine agrees with every row of the repository's
`Test_shouldReconcile` table (internal/controllers/cluster): matching purpose,
matching labels, matching labels and purpose, matching labels but wrong
purpose, matching purpose but wrong labels, matching reference, wrong
reference, wrong reference but finalizer present. -/
lemma shouldReconcile_agrees_with_repo_tests :
    shouldReconcile testTerms ⟨"", "", [], ["platform"], [], [], false⟩ = true
    ∧ shouldReconcile testTerms
        ⟨"", "", [("foo", "bar"), ("gateway", "true")], [], [], [], false⟩ = true
    ∧ shouldReconcile testTerms
        ⟨"", "", [("webhooks", "true")], ["workload"], [], [], false⟩ = true
    ∧ shouldReconcile testTerms
        ⟨"", "", [("webhooks", "true")], ["mcp"], [], [], false⟩ = false
    ∧ shouldReconcile testTerms
        ⟨"", "", [("foo", "bar")], ["workload"], [], [], false⟩ = false
    ∧ shouldReconcile testTerms ⟨"foo", "bar", [], [], [], [], false⟩ = true
    ∧ shouldReconcile testTerms ⟨"foo", "other", [], [], [], [], false⟩ = false
    ∧ shouldReconcile testTerms
        ⟨"foo", "other", [], [], [], [gatewayFinalizerOnCluster], false⟩ = true := by
  decide

/-- Claim C1 (code bug): the claim says the remaining-resources condition of
`ensureDeletionOfObjects` carries exactly the identities of the still-present
objects and never the already-absent ones — after two of three initially-live
objects are removed externally, the second call should carry exactly the one
remaining identity.  The code instead passes the full input list to
`NewRemainingResourcesError`: with only the gateway still present (the proxy
configuration and gateway class deletes return not-found), the condition
still carries all three identities. -/
theorem cleanup_condition_carries_absent_identities :
    ensureDeletionOfObjects (clientDelete c1StoreAllLive) cleanupObjs
        = some (.remainingResources 10 [gatewayId, envoyProxyId, gatewayClassId])
    ∧ clientDelete c1StoreOneLive gatewayId = .accepted
    ∧ clientDelete c1StoreOneLive envoyProxyId = .notFound
    ∧ clientDelete c1StoreOneLive gatewayClassId = .notFound
    ∧ ensureDeletionOfObjects (clientDelete c1StoreOneLive) cleanupObjs
        = some (.remainingResources 10 [gatewayId, envoyProxyId, gatewayClassId]) := by
  refine ⟨by decide, by decide, by decide, by decide, by decide⟩

/-- Claim C2: on every reconciliation run that takes the teardown path, a
failing `Cleanup` (in particular a remaining-resources condition) is returned
as the run's error with the Cluster object unchanged, a failing `Uninstall`
likewise, and the gateway finalizer can only have been removed when both
`Cleanup` and `Uninstall` returned success. -/
theorem teardown_finalizer_after_cleanup_uninstall :
    ∀ (terms : List ClusterTerm) (env : Env) (c c' : Cluster),
      env.getCluster = some c →
      handleOperation env.removeOpAnnOk c = .proceed c' →
      shouldReconcile terms c' = true →
      env.access = .ready →
      (c'.deletionTimestampSet = true ∨ enabledForCluster terms c' = false) →
      (∀ e, env.gw.cleanup = some e →
        (reconcile terms env).error = some e ∧ (reconcile terms env).cluster = some c')
      ∧ (env.gw.cleanup = none → ∀ e, env.gw.uninstall = some e →
          (reconcile terms env).error = some e ∧ (reconcile terms env).cluster = some c')
      ∧ (∀ c'', (reconcile terms env).cluster = some c'' →
          gatewayFinalizerOnCluster ∉ c''.finalizers →
          gatewayFinalizerOnCluster ∈ c'.finalizers →
          env.gw.cleanup = none ∧ env.gw.uninstall = none) := by
  intro terms env c c' hget hop hsr hacc hbr
  have hcond : (c'.deletionTimestampSet || !enabledForCluster terms c') = true := by
    rcases hbr with h | h <;> simp [h]
  have hrec : reconcile terms env = teardown env c' := by
    simp only [reconcile, hget, hop, reconcileCore, hsr, hacc, hcond, Bool.not_true,
      Bool.false_eq_true, if_false, if_true]
  refine ⟨?_, ?_, ?_⟩
  · intro e he
    rw [hrec]
    simp [teardown, he]
  · intro hcl e hun
    rw [hrec]
    simp [teardown, hcl, hun]
  · intro c'' hc hnot hin
    rw [hrec] at hc
    cases hcl : env.gw.cleanup with
    | some e =>
      simp [teardown, hcl] at hc
      exact absurd (hc ▸ hin) hnot
    | none =>
      cases hun : env.gw.uninstall with
      | some e =>
        simp [teardown, hcl, hun] at hc
        exact absurd (hc ▸ hin) hnot
      | none => exact ⟨rfl, rfl⟩

/-- Claim C2 witness: a deleting cluster carrying the gateway finalizer, whose
`Cleanup` reports a remaining-resources condition. -/
theorem teardown_finalizer_after_cleanup_uninstall_witness :
    (∀ e, c2Env.gw.cleanup = some e →
      (reconcile [] c2Env).error = some e ∧ (reconcile [] c2Env).cluster = some c2Cluster)
    ∧ (c2Env.gw.cleanup = none → ∀ e, c2Env.gw.uninstall = some e →
        (reconcile [] c2Env).error = some e ∧ (reconcile [] c2Env).cluster = some c2Cluster)
    ∧ (∀ c'', (reconcile [] c2Env).cluster = some c'' →
        gatewayFinalizerOnCluster ∉ c''.finalizers →
        gatewayFinalizerOnCluster ∈ c2Cluster.finalizers →
        c2Env.gw.cleanup = none ∧ c2Env.gw.uninstall = none) :=
  teardown_finalizer_after_cleanup_uninstall [] c2Env c2Cluster c2Cluster rfl rfl
    (by decide) rfl (.inl rfl)

/-- Claim C3 counterexample: a CRD-not-found apply error during
`InstallOrUpdate` is returned unchanged — not converted into a retryable
condition with a 10-second backoff, as the claim states. -/
theorem installOrUpdate_crd_not_found_not_retryable :
    Gateway.installOrUpdate c3Gateway c3Apply = some c3ApplyErr
    ∧ isCRDNotFoundErr c3ApplyErr = true
    ∧ isRetryableErr c3ApplyErr = false := by
  refine ⟨by decide, rfl, rfl⟩

/-- Claim C3 amended: `InstallOrUpdate` returns every apply error unchanged
(no retryable conversion, not even for CRD-not-found); it is `Configure` that
converts a CRD-not-found apply error into a retryable condition with a fixed
10-second backoff and returns every other apply error unchanged. -/
theorem installOrUpdate_vs_configure_translation :
    ∀ (g : Gateway) (apply : ObjId → Option GoError) (e : GoError),
      Gateway.installOrUpdate g apply = createOrUpdate apply g.installOps
      ∧ (createOrUpdate apply configureOps = some e →
          (isCRDNotFoundErr e = true → Gateway.configure g apply = some (.retryable 10 e))
          ∧ (isCRDNotFoundErr e = false → Gateway.configure g apply = some e)) := by
  intro g apply e
  refine ⟨rfl, ?_⟩
  intro h
  constructor <;> intro hc <;> simp [Gateway.configure, h, hc]

/-- Claim C4 counterexample: a selector mapping a key to the empty string
matches a cluster that carries no labels at all, although no listed key/value
pair is present on the cluster — the in-scope decision is not equivalent to
the claim's presence reading of label matching. -/
theorem enabledForCluster_vs_presence_reading :
    enabledForCluster c4Terms c4Cluster = true ∧ inScopePresence c4Terms c4Cluster = false := by
  exact ⟨rfl, rfl⟩

/-- Claim C4 amended: the in-scope decision is true iff some term matches;
a selector matches iff its purpose matches AND, for every listed key/value
pair, the cluster's label value for the key — the empty string when the key
is absent — equals the listed value (so pairs with non-empty values must be
present, a pair with empty value is also satisfied by a cluster lacking the
key, and extra cluster labels are ignored); an empty purpose matches every
cluster and an empty label set matches every cluster. -/
theorem enabledForCluster_characterization :
    ∀ (terms : List ClusterTerm) (c : Cluster),
      (enabledForCluster terms c = true ↔
        ∃ ct ∈ terms,
          (∃ ref, ct.clusterRef = some ref ∧ refMatches ref c = true) ∨
            (∃ sel, ct.selector = some sel ∧
              (sel.matchPurpose = "" ∨ sel.matchPurpose ∈ c.purposes) ∧
                ∀ kv ∈ sel.matchLabels, lookupGo c.labels kv.1 = kv.2))
      ∧ purposeMatches "" c = true ∧ labelsMatch [] c = true := by
  intro terms c
  refine ⟨?_, by simp [purposeMatches], by simp [labelsMatch]⟩
  simp only [enabledForCluster_eq_true_iff, termMatches_eq_true_iff, selectorMatches_eq_true_iff]

/-- Claim C5: `shouldReconcile` equals hasFinalizer OR in-scope; in particular
it is true whenever the cluster carries the gateway lifecycle finalizer,
whatever the configuration.  The embedding is a total function, so the
operation is pure and total by construction. -/
theorem shouldReconcile_characterization :
    ∀ (terms : List ClusterTerm) (c : Cluster),
      (shouldReconcile terms c = true ↔
        gatewayFinalizerOnCluster ∈ c.finalizers ∨ enabledForCluster terms c = true)
      ∧ (gatewayFinalizerOnCluster ∈ c.finalizers → shouldReconcile terms c = true) := by
  intro terms c
  have h : shouldReconcile terms c = true ↔
      gatewayFinalizerOnCluster ∈ c.finalizers ∨ enabledForCluster terms c = true := by
    simp [shouldReconcile, containsFinalizer, Bool.or_eq_true]
  exact ⟨h, fun hf => h.mpr (.inl hf)⟩

/-- Claim C6 counterexample: a run over a cluster whose effective operation
annotation is the gateway-specific key with value `reconcile` completes
without clearing that annotation — the deletion targets the generic key, so
the gateway-specific `reconcile` annotation is still on the returned Cluster
object. -/
theorem gateway_reconcile_value_not_cleared :
    reconcile [] c6Env = ⟨some c6Cluster, none, 0⟩
    ∧ effectiveOperation c6Cluster = some operationValueReconcile
    ∧ lookupOpt c6Cluster.annots gatewayOperationKey = some operationValueReconcile := by
  refine ⟨by decide, by decide, by decide⟩

/-- Claim C6 amended: a run whose effective operation annotation is `ignore`
terminates without action; one whose effective value is `reconcile` deletes
the generic operation annotation key — leaving a gateway-specific annotation,
when that is where the value came from, in place — and continues with normal
reconciliation on the so-modified cluster. -/
theorem operation_handling_characterization :
    ∀ (terms : List ClusterTerm) (env : Env) (c : Cluster),
      env.getCluster = some c →
      (effectiveOperation c = some operationValueIgnore →
        reconcile terms env = ⟨some c, none, 0⟩)
      ∧ (effectiveOperation c = some operationValueReconcile → env.removeOpAnnOk = true →
          reconcile terms env
              = reconcileCore terms env { c with annots := eraseKey c.annots genericOperationKey }
          ∧ lookupOpt (eraseKey c.annots genericOperationKey) genericOperationKey = none
          ∧ lookupOpt (eraseKey c.annots genericOperationKey) gatewayOperationKey
              = lookupOpt c.annots gatewayOperationKey) := by
  intro terms env c hget
  constructor
  · intro hig
    have hok : handleOperation env.removeOpAnnOk c = .terminate := by
      simp [handleOperation, hig]
    simp [reconcile, hget, hok]
  · intro hrc hok
    have hne : operationValueReconcile ≠ operationValueIgnore := by decide
    have hstep : handleOperation env.removeOpAnnOk c
        = .proceed { c with annots := eraseKey c.annots genericOperationKey } := by
      simp [handleOperation, hrc, hok, hne]
    refine ⟨by simp [reconcile, hget, hstep], lookupOpt_eraseKey_self _ _,
      lookupOpt_eraseKey_ne _ _ _ (by decide)⟩

/-- Claim C6 amended witness: a cluster whose generic operation annotation is
`reconcile`. -/
theorem operation_handling_characterization_witness :
    (effectiveOperation c6wCluster = some operationValueIgnore →
      reconcile [] c6wEnv = ⟨some c6wCluster, none, 0⟩)
    ∧ (effectiveOperation c6wCluster = some operationValueReconcile →
        c6wEnv.removeOpAnnOk = true →
        reconcile [] c6wEnv
            = reconcileCore [] c6wEnv
                { c6wCluster with annots := eraseKey c6wCluster.annots genericOperationKey }
        ∧ lookupOpt (eraseKey c6wCluster.annots genericOperationKey) genericOperationKey = none
        ∧ lookupOpt (eraseKey c6wCluster.annots genericOperationKey) gatewayOperationKey
            = lookupOpt c6wCluster.annots gatewayOperationKey) :=
  operation_handling_characterization [] c6wEnv c6wCluster rfl

/-- Claim C7: when every object of the list is absent from the store (its
delete returns not-found, or its kind is not registered),
`ensureDeletionOfObjects` returns success; the function reads the store and
issues only deletes of absent objects, so the store satisfies the same
hypothesis afterwards and every repeated call with the same list returns
success as well. -/
theorem ensureDeleted_absent_success :
    ∀ (s : Store) (objs : List ObjId),
      (∀ o ∈ objs, clientDelete s o = .notFound ∨ clientDelete s o = .crdNotFound) →
      ensureDeletionOfObjects (clientDelete s) objs = none := by
  intro s objs h
  simp [ensureDeletionOfObjects, deletionLoop_all_absent _ _ h]

/-- Claim C7 witness: the three data-plane objects against a store holding
none of them, the EnvoyProxy kind unregistered. -/
theorem ensureDeleted_absent_success_witness :
    ensureDeletionOfObjects (clientDelete c7Store) cleanupObjs = none :=
  ensureDeleted_absent_success c7Store cleanupObjs (by decide)

/-- Claim C8 counterexample: a cluster with no labels is in scope of a
configuration whose selector maps the key "gpu" to the empty string; adding
the label ("gpu", "yes") — a fresh key — drops it out of scope, so adding
fresh-key labels can change the in-scope result from true to false. -/
theorem fresh_label_can_drop_scope :
    enabledForCluster c8Terms c8Cluster = true ∧
      "gpu" ∉ keysOf c8Cluster.labels ∧
        enabledForCluster c8Terms c8ClusterExt = false := by
  refine ⟨rfl, by decide, rfl⟩

/-- Claim C8 amended: the in-scope decision is monotonic in OR across terms —
extending the configuration never decreases scope — and adding label
key/value pairs whose keys are fresh on the cluster and are not mapped to the
empty string by the matched term's selector never changes a true in-scope
result to false (a selector entry with empty value also matches the absence
of the key, so adding that key can break the match). -/
theorem enabledForCluster_monotonicity :
    ∀ (terms more : List ClusterTerm) (c : Cluster)
      (extra : List (String × String)) (ct : ClusterTerm),
      (enabledForCluster terms c = true → enabledForCluster (terms ++ more) c = true)
      ∧ (ct ∈ terms → termMatches ct c = true →
          (∀ kv ∈ extra, kv.1 ∉ keysOf c.labels) →
          (∀ kv ∈ extra, ∀ sel, ct.selector = some sel → (kv.1, "") ∉ sel.matchLabels) →
          enabledForCluster terms { c with labels := c.labels ++ extra } = true) := by
  intro terms more c extra ct
  constructor
  · intro h
    rw [enabledForCluster_eq_true_iff] at h ⊢
    obtain ⟨t, ht, hm⟩ := h
    exact ⟨t, List.mem_append_left _ ht, hm⟩
  · intro hmem hmatch hfresh hexcl
    rw [enabledForCluster_eq_true_iff]
    refine ⟨ct, hmem, ?_⟩
    rw [termMatches_eq_true_iff] at hmatch ⊢
    rcases hmatch with ⟨ref, href, hrm⟩ | ⟨sel, hsel, hsm⟩
    · exact .inl ⟨ref, href, hrm⟩
    · refine .inr ⟨sel, hsel, ?_⟩
      rw [selectorMatches_eq_true_iff] at hsm ⊢
      obtain ⟨hp, hl⟩ := hsm
      refine ⟨hp, ?_⟩
      intro kv hkv
      have hbase := hl kv hkv
      show lookupGo (c.labels ++ extra) kv.1 = kv.2
      by_cases hk : kv.1 ∈ keysOf extra
      · obtain ⟨p, hp', hpk⟩ := List.mem_map.mp hk
        have h1 : kv.1 ∉ keysOf c.labels := hpk ▸ hfresh p hp'
        have h2 : lookupGo c.labels kv.1 = "" := by
          rw [lookupGo, lookupOpt_eq_none_of_not_mem_keys h1]; rfl
        have hv : kv.2 = "" := by rw [← hbase, h2]
        have hnot : (kv.1, "") ∉ sel.matchLabels := hpk ▸ hexcl p hp' sel hsel
        have : (kv.1, "") ∈ sel.matchLabels := by
          rw [← hv]
          simpa using hkv
        exact absurd this hnot
      · rw [lookupGo, lookupOpt_append, lookupOpt_eq_none_of_not_mem_keys hk, Option.or_none]
        exact hbase

/-- Claim C9: a direct cluster reference matches iff name and namespace are
equal after normalization, the empty namespace replaced by the default
namespace on both sides; the cluster foo/bar matches the reference
{foo, bar} and not {foo, baz}, and a cluster with empty namespace matches
both {foo, "default"} and {foo, ""}. -/
theorem refMatches_characterization :
    (∀ (ref : ClusterRef) (c : Cluster),
      refMatches ref c = true ↔
        ref.name = c.name ∧
          (if ref.ns = "" then namespaceDefault else ref.ns) =
            (if c.ns = "" then namespaceDefault else c.ns))
    ∧ refMatches ⟨"foo", "bar"⟩ c9Cluster = true
    ∧ refMatches ⟨"foo", "baz"⟩ c9Cluster = false
    ∧ refMatches ⟨"foo", "default"⟩ c9ClusterEmptyNs = true
    ∧ refMatches ⟨"foo", ""⟩ c9ClusterEmptyNs = true := by
  refine ⟨?_, rfl, rfl, rfl, rfl⟩
  intro ref c
  simp [refMatches, normalizedName, Prod.ext_iff]

/-- Claim C10: a selector entry mapping a key to the empty string is
satisfied by a cluster lacking that key entirely — the Go map lookup of the
missing key yields the empty string, which compares equal — so the entry does
not constrain such clusters and a selector of only that entry matches them. -/
theorem emptyValue_pair_matches_missing_key :
    ∀ (c : Cluster) (k : String) (rest : List (String × String)),
      k ∉ keysOf c.labels →
      lookupGo c.labels k = "" ∧
        labelsMatch ((k, "") :: rest) c = labelsMatch rest c ∧
        selectorMatches ⟨[(k, "")], ""⟩ c = true := by
  intro c k rest h
  have h0 : lookupGo c.labels k = "" := by
    rw [lookupGo, lookupOpt_eq_none_of_not_mem_keys h]; rfl
  refine ⟨h0, ?_, ?_⟩
  · simp [labelsMatch, h0]
  · simp [selectorMatches, purposeMatches, labelsMatch, h0]

/-- Claim C10 witness: the key "team" on a cluster that does not carry it. -/
theorem emptyValue_pair_matches_missing_key_witness :
    lookupGo c10Cluster.labels "team" = "" ∧
      labelsMatch [("team", "")] c10Cluster = labelsMatch [] c10Cluster ∧
        selectorMatches ⟨[("team", "")], ""⟩ c10Cluster = true :=
  emptyValue_pair_matches_missing_key c10Cluster "team" [] (by decide)

end PSG
